import Mathlib

/-!
Verification of the request-context layer of the syntifai backend
(`src/main.py`): the `logging_context_middleware` registered by
`create_app`, the session-id extraction rule, and the context-store
cleanup contract.

The middleware (lines 93-104 of `main.py`) is embedded as a pure
state-passing function over an explicit context-store value, together
with an event trace recording the order of its store writes and the
handler invocation.  Handler failure is modelled with `Except`.
-/

namespace Syntifai

/-- The request context held by the Context Store for one logical request:
an optional session id and an optional endpoint path. -/
structure Ctx where
  session : Option String
  endpoint : Option String
deriving DecidableEq, Repr

/-- The all-absent default context. -/
def Ctx.empty : Ctx := { session := none, endpoint := none }

/-- Modelled from the spec: `set_session` is implemented in
`utils/logging_config.py`, which is not part of the analyzed sources; per
spec section 4.1 it stores the given session id (or the absence value) for
the currently executing logical request and never fails. -/
def set_session (v : Option String) (c : Ctx) : Ctx := { c with session := v }

/-- Modelled from the spec: `set_endpoint` is implemented in
`utils/logging_config.py`, which is not part of the analyzed sources; per
spec section 4.1 it stores the given endpoint path (or the absence value)
for the currently executing logical request and never fails. -/
def set_endpoint (v : Option String) (c : Ctx) : Ctx := { c with endpoint := v }

/-- An inbound HTTP request as the middleware sees it: its header list,
its query parameters, and its URL path (the path component carries no
query string; query parameters are a separate field, as in
`request.url.path` versus `request.query_params`). -/
structure Request where
  headers : List (String × String)
  queryParams : List (String × String)
  path : String

/-- `.get` on a header/parameter mapping: the value at the first matching
key, or `none` when the key is missing. -/
def getFirst : List (String × String) → String → Option String
  | [], _ => none
  | (k, v) :: rest, key => if k = key then some v else getFirst rest key

/-- Python `or` applied to two optional strings: `None` and the empty
string are falsy, so the left operand is kept only when it is a non-empty
string; otherwise the right operand is the result. -/
def pyOrStr (a b : Option String) : Option String :=
  match a with
  | none => b
  | some s => if s = "" then b else some s

/-- Line 96: `request.headers.get("X-Session-Id") or
request.query_params.get("session_id")`. -/
def extractSession (req : Request) : Option String :=
  pyOrStr (getFirst req.headers "X-Session-Id") (getFirst req.queryParams "session_id")

/-- One observable step of the middleware: a store write or the handler
invocation. -/
inductive Event where
  | evSetSession : Option String → Event
  | evSetEndpoint : Option String → Event
  | evInvokeHandler : Event
deriving DecidableEq, BEq, Repr

/-- Perform `set_session` and record it in the trace. -/
def emitSetSession (v : Option String) : Ctx × List Event → Ctx × List Event
  | (c, t) => (set_session v c, t ++ [Event.evSetSession v])

/-- Perform `set_endpoint` and record it in the trace. -/
def emitSetEndpoint (v : Option String) : Ctx × List Event → Ctx × List Event
  | (c, t) => (set_endpoint v c, t ++ [Event.evSetEndpoint v])

/-- `logging_context_middleware` (main.py lines 93-104).  The `try` block
extracts the session id, stores it, stores the request path, and awaits
the downstream handler `call_next`; the `finally` block then clears both
store fields, after which the handler's result (response or error) leaves
the middleware.  Returns the final context, the event trace, and the
handler's result. -/
def logging_context_middleware {ε ρ : Type} (req : Request)
    (call_next : Ctx → Except ε ρ) (c : Ctx) :
    Ctx × List Event × Except ε ρ :=
  let st1 := emitSetSession (extractSession req) (c, [])
  let st2 := emitSetEndpoint (some req.path) st1
  let response := call_next st2.1
  let st3 : Ctx × List Event := (st2.1, st2.2 ++ [Event.evInvokeHandler])
  let st4 := emitSetSession none st3
  let st5 := emitSetEndpoint none st4
  (st5.1, st5.2, response)

/-- The context a downstream handler observes: run the middleware with a
handler that returns the context it was invoked with. -/
def handlerView (req : Request) (c : Ctx) : Except Unit Ctx :=
  (logging_context_middleware req (fun ctx => Except.ok ctx) c).2.2

/-- The context in force when the handler runs (after both setting
writes). -/
def ctxAfterSetup (req : Request) (c : Ctx) : Ctx :=
  set_endpoint (some req.path) (set_session (extractSession req) c)

/-- Claim C1: after the middleware finishes — whether the handler returned
normally or raised — the Context Store is all-absent, and the post-state of
the store is identical under any two handlers (so the success path and the
failure path leave the same post-state). -/
theorem c1_cleanup_all_paths {ε ρ : Type} (req : Request)
    (h k : Ctx → Except ε ρ) (c : Ctx) :
    ((logging_context_middleware req h c).1).session = none ∧
    ((logging_context_middleware req h c).1).endpoint = none ∧
    (logging_context_middleware req h c).1 = (logging_context_middleware req k c).1 := by
  refine ⟨rfl, rfl, rfl⟩

/-- Claim C5: for every request, the middleware's operations occur in
exactly this order: `set_session` with the extracted id, `set_endpoint`
with the path, the handler invocation, then the two clearing writes. -/
theorem c5_operation_order {ε ρ : Type} (req : Request)
    (h : Ctx → Except ε ρ) (c : Ctx) :
    (logging_context_middleware req h c).2.1 =
      [Event.evSetSession (extractSession req),
       Event.evSetEndpoint (some req.path),
       Event.evInvokeHandler,
       Event.evSetSession none,
       Event.evSetEndpoint none] := rfl

/-- Claim C6: the endpoint stored via `set_endpoint`, as observed by the
downstream handler, is exactly the request's path string, whatever the
query parameters are (so no query string is appended and no normalization
is applied). -/
theorem c6_endpoint_exact (req : Request) (c : Ctx) :
    (logging_context_middleware (ε := Unit) req
        (fun ctx => Except.ok ctx.endpoint) c).2.2 = Except.ok (some req.path) := rfl

/-- Claim C7: when the downstream handler completes normally, the result
returned by the middleware is exactly the handler's response, unmodified. -/
theorem c7_response_unmodified {ε ρ : Type} (req : Request)
    (h : Ctx → Except ε ρ) (c : Ctx) (r : ρ)
    (hr : h (ctxAfterSetup req c) = Except.ok r) :
    (logging_context_middleware req h c).2.2 = Except.ok r := hr

/-- Witness for C7 at a concrete request and handler. -/
theorem c7_response_unmodified_witness :
    (logging_context_middleware (ε := Unit)
        { headers := [], queryParams := [], path := "/x" }
        (fun _ => Except.ok 42) Ctx.empty).2.2 = Except.ok 42 :=
  c7_response_unmodified { headers := [], queryParams := [], path := "/x" }
    (fun _ => Except.ok 42) Ctx.empty 42 rfl

/-- Claim C4: when the downstream handler raises an error, the middleware
propagates the very same error unchanged, and the Context Store has been
cleared by the time the error leaves the middleware. -/
theorem c4_error_propagated_after_cleanup {ε ρ : Type} (req : Request)
    (h : Ctx → Except ε ρ) (c : Ctx) (e : ε)
    (he : h (ctxAfterSetup req c) = Except.error e) :
    (logging_context_middleware req h c).2.2 = Except.error e ∧
    ((logging_context_middleware req h c).1).session = none ∧
    ((logging_context_middleware req h c).1).endpoint = none :=
  ⟨he, rfl, rfl⟩

/-- Witness for C4 at a concrete request and a handler that raises. -/
theorem c4_error_propagated_after_cleanup_witness :
    (logging_context_middleware (ρ := Unit)
        { headers := [], queryParams := [], path := "/x" }
        (fun _ => Except.error 3) Ctx.empty).2.2 = Except.error 3 ∧
    ((logging_context_middleware (ρ := Unit)
        { headers := [], queryParams := [], path := "/x" }
        (fun _ => Except.error 3) Ctx.empty).1).session = none ∧
    ((logging_context_middleware (ρ := Unit)
        { headers := [], queryParams := [], path := "/x" }
        (fun _ => Except.error 3) Ctx.empty).1).endpoint = none :=
  c4_error_propagated_after_cleanup { headers := [], queryParams := [], path := "/x" }
    (fun _ => Except.error 3) Ctx.empty 3 rfl

/-- Counterexample to claim C2 as stated: for the request carrying header
`X-Session-Id` with the empty-string value and query parameter
`session_id=Q1`, the header is present, yet the stored session id is `Q1`,
not the header's value, because Python `or` treats the empty string as
falsy. -/
theorem c2_counterexample :
    getFirst [("X-Session-Id", "")] "X-Session-Id" = some "" ∧
    (logging_context_middleware (ε := Unit)
        { headers := [("X-Session-Id", "")],
          queryParams := [("session_id", "Q1")], path := "/x" }
        (fun ctx => Except.ok ctx.session) Ctx.empty).2.2 = Except.ok (some "Q1") ∧
    (some "Q1" : Option String) ≠ some "" := by
  refine ⟨rfl, rfl, by decide⟩

/-- The session rule as amended: the header's value when the header is
present with a non-empty value; otherwise the query parameter's value when
that parameter is present; otherwise absent. -/
def sessionRuleAmended (h q : Option String) : Option String :=
  if h ≠ none ∧ h ≠ some "" then h else q

/-- Claim C2 (amended): the session id observed by the handler is the
value of header `X-Session-Id` when that header is present with a
non-empty value; otherwise the value of query parameter `session_id` if
present; otherwise absent (not an empty string). -/
theorem c2_amended_session_rule (req : Request) (c : Ctx) :
    (logging_context_middleware (ε := Unit) req
        (fun ctx => Except.ok ctx.session) c).2.2 =
      Except.ok (sessionRuleAmended (getFirst req.headers "X-Session-Id")
        (getFirst req.queryParams "session_id")) := by
  have hq : extractSession req =
      sessionRuleAmended (getFirst req.headers "X-Session-Id")
        (getFirst req.queryParams "session_id") := by
    unfold extractSession pyOrStr sessionRuleAmended
    cases getFirst req.headers "X-Session-Id" with
    | none => simp
    | some s => by_cases hs : s = "" <;> simp [hs]
  exact congrArg Except.ok hq

/-- Claim C9: a present-but-empty `X-Session-Id` header falls back to the
`session_id` query parameter (so an empty-string header value is never
what gets stored); and with the header missing and the query parameter
equal to the empty string, the empty string is stored. -/
theorem c9_empty_string_session (req : Request) (c : Ctx) :
    (getFirst req.headers "X-Session-Id" = some "" →
      (logging_context_middleware (ε := Unit) req
          (fun ctx => Except.ok ctx.session) c).2.2 =
        Except.ok (getFirst req.queryParams "session_id")) ∧
    (getFirst req.headers "X-Session-Id" = none →
      getFirst req.queryParams "session_id" = some "" →
      (logging_context_middleware (ε := Unit) req
          (fun ctx => Except.ok ctx.session) c).2.2 = Except.ok (some "")) := by
  constructor
  · intro hh
    show Except.ok (extractSession req) = _
    unfold extractSession pyOrStr
    rw [hh]
    simp
  · intro hh hp
    show Except.ok (extractSession req) = _
    unfold extractSession pyOrStr
    rw [hh, hp]

/-- Witness for C9: both branches at concrete requests. -/
theorem c9_empty_string_session_witness :
    (logging_context_middleware (ε := Unit)
        { headers := [("X-Session-Id", "")], queryParams := [], path := "/" }
        (fun ctx => Except.ok ctx.session) Ctx.empty).2.2 =
      Except.ok (getFirst ([] : List (String × String)) "session_id") ∧
    (logging_context_middleware (ε := Unit)
        { headers := [], queryParams := [("session_id", "")], path := "/" }
        (fun ctx => Except.ok ctx.session) Ctx.empty).2.2 = Except.ok (some "") :=
  ⟨(c9_empty_string_session
      { headers := [("X-Session-Id", "")], queryParams := [], path := "/" }
      Ctx.empty).1 rfl,
   (c9_empty_string_session
      { headers := [], queryParams := [("session_id", "")], path := "/" }
      Ctx.empty).2 rfl rfl⟩

/-- The application object assembled by `create_app` (main.py lines
69-106): its OpenAPI metadata and flags recording that the external route
table has been attached and that the request-interceptor middleware has
been registered. -/
structure App where
  title : String
  version : String
  docsUrl : String
  redocUrl : String
  openapiUrl : String
  routesAttached : Bool
  middlewareRegistered : Bool
deriving DecidableEq, Repr

/-- One setup step performed by `create_app`. -/
inductive SetupStep where
  | configureLoggingStep
  | constructShellStep
  | attachRoutesStep
  | registerMiddlewareStep
deriving DecidableEq, Repr

/-- `create_app` (main.py lines 69-106): calls `configure_logging` (a
collaborator in `utils/logging_config.py`, outside the analyzed sources,
modelled as an opaque step), constructs the application shell with its
metadata, attaches the external router at the application root, and
registers the logging-context middleware.  Each invocation builds its
result from scratch; the function returns the setup-step trace together
with the assembled application. -/
def create_app (_u : Unit) : List SetupStep × App :=
  let t1 : List SetupStep := [] ++ [SetupStep.configureLoggingStep]
  let app0 : App :=
    { title := "UBS syntifAI - Synthetic Data Generation API"
      version := "0.0.1"
      docsUrl := "/docs"
      redocUrl := "/redoc"
      openapiUrl := "/openapi.json"
      routesAttached := false
      middlewareRegistered := false }
  let t2 := t1 ++ [SetupStep.constructShellStep]
  let app1 : App := { app0 with routesAttached := true }
  let t3 := t2 ++ [SetupStep.attachRoutesStep]
  let app2 : App := { app1 with middlewareRegistered := true }
  let t4 := t3 ++ [SetupStep.registerMiddlewareStep]
  (t4, app2)

/-- Claim C8: every invocation of `create_app` performs, in order, the
logging initialization, the shell construction with its metadata, the
route attachment, and the middleware registration, and returns an
application freshly assembled by that invocation with routes attached and
the middleware registered. -/
theorem c8_create_app_order (u : Unit) :
    (create_app u).1 =
      [SetupStep.configureLoggingStep, SetupStep.constructShellStep,
       SetupStep.attachRoutesStep, SetupStep.registerMiddlewareStep] ∧
    (create_app u).2 =
      { title := "UBS syntifAI - Synthetic Data Generation API"
        version := "0.0.1"
        docsUrl := "/docs"
        redocUrl := "/redoc"
        openapiUrl := "/openapi.json"
        routesAttached := true
        middlewareRegistered := true } := ⟨rfl, rfl⟩

/-- The Context Store write interface with possibly-raising calls: each
call returns the store it leaves behind together with `some e` when it
raised `e`, `none` when it returned normally.  This generalizes the
collaborator functions so the middleware's `try`/`finally` structure can
be examined when the context-setting phase itself fails. -/
structure StoreOps (ε : Type) where
  setS : Option String → Ctx → Ctx × Option ε
  setE : Option String → Ctx → Ctx × Option ε

/-- The `finally` block of the middleware (main.py lines 101-104), over
the generalized store operations: clear the session, then clear the
endpoint; a raise inside the block replaces the pending result, as in
Python. -/
def runFinallyClear {ε ρ : Type} (ops : StoreOps ε) (br : Ctx × Except ε ρ) :
    Ctx × Except ε ρ :=
  let s3 := ops.setS none br.1
  match s3.2 with
  | some e => (s3.1, Except.error e)
  | none =>
    let s4 := ops.setE none s3.1
    match s4.2 with
    | some e => (s4.1, Except.error e)
    | none => (s4.1, br.2)

/-- `logging_context_middleware` (main.py lines 93-104) with the store
writes generalized to possibly-raising operations.  The `try` block runs
the extraction, the two setting writes and the handler, stopping at the
first raise; the `finally` block then runs unconditionally. -/
def logging_context_middleware_gen {ε ρ : Type} (ops : StoreOps ε)
    (req : Request) (call_next : Ctx → Ctx × Except ε ρ) (c : Ctx) :
    Ctx × Except ε ρ :=
  let body : Ctx × Except ε ρ :=
    let s1 := ops.setS (extractSession req) c
    match s1.2 with
    | some e => (s1.1, Except.error e)
    | none =>
      let s2 := ops.setE (some req.path) s1.1
      match s2.2 with
      | some e => (s2.1, Except.error e)
      | none => call_next s2.1
  runFinallyClear ops body

/-- Claim C10: provided the two clearing writes behave as the Context
Store contract says (clearing their own field, preserving the other, never
raising), the middleware leaves the store all-absent for every request,
every initial store, and every behavior of the setting phase and the
handler — in particular even when `set_session` or `set_endpoint` raises
before the handler is ever invoked. -/
theorem c10_cleared_even_when_setup_raises {ε ρ : Type} (ops : StoreOps ε)
    (hS : ∀ c : Ctx, (ops.setS none c).2 = none ∧
      ((ops.setS none c).1).session = none ∧
      ((ops.setS none c).1).endpoint = c.endpoint)
    (hE : ∀ c : Ctx, (ops.setE none c).2 = none ∧
      ((ops.setE none c).1).endpoint = none ∧
      ((ops.setE none c).1).session = c.session)
    (req : Request) (k : Ctx → Ctx × Except ε ρ) (c : Ctx) :
    ((logging_context_middleware_gen ops req k c).1).session = none ∧
    ((logging_context_middleware_gen ops req k c).1).endpoint = none := by
  have key : ∀ br : Ctx × Except ε ρ,
      ((runFinallyClear ops br).1).session = none ∧
      ((runFinallyClear ops br).1).endpoint = none := by
    intro br
    unfold runFinallyClear
    obtain ⟨h1, h2, _⟩ := hS br.1
    obtain ⟨h4, h5, h6⟩ := hE (ops.setS none br.1).1
    simp only [h1, h4]
    exact ⟨by rw [h6, h2], h5⟩
  exact key _

/-- Store operations for the C10 witness: the session write raises on any
non-absent argument, while the clearing calls behave per the contract. -/
def raisingSetupOps : StoreOps Nat :=
  { setS := fun v c =>
      match v with
      | some _ => (c, some 7)
      | none => (set_session none c, none)
    setE := fun v c => (set_endpoint v c, none) }

/-- Witness for C10: a request whose session write raises before the
handler runs still leaves the store all-absent. -/
theorem c10_cleared_even_when_setup_raises_witness :
    ((logging_context_middleware_gen raisingSetupOps
        { headers := [("X-Session-Id", "S")], queryParams := [], path := "/x" }
        (fun ctx => (ctx, Except.ok 0)) Ctx.empty).1).session = none ∧
    ((logging_context_middleware_gen raisingSetupOps
        { headers := [("X-Session-Id", "S")], queryParams := [], path := "/x" }
        (fun ctx => (ctx, Except.ok 0)) Ctx.empty).1).endpoint = none :=
  c10_cleared_even_when_setup_raises raisingSetupOps
    (fun _ => ⟨rfl, rfl, rfl⟩) (fun _ => ⟨rfl, rfl, rfl⟩)
    { headers := [("X-Session-Id", "S")], queryParams := [], path := "/x" }
    (fun ctx => (ctx, Except.ok 0)) Ctx.empty

/-- Modelled from the spec: the Context Store's storage, whose
implementation (`utils/logging_config.py`) is outside the analyzed
sources, binds one context slot to each logical task (spec sections 4.1
and 9): per-task storage indexed by the task identifier of the logical
request performing the access. -/
abbrev TaskStore := Nat → Ctx

/-- One store write as issued during some logical request's handling. -/
inductive Action where
  | actSetSession : Option String → Action
  | actSetEndpoint : Option String → Action
deriving DecidableEq, Repr

/-- Apply one write to a single context slot. -/
def applyWrite : Action → Ctx → Ctx
  | Action.actSetSession v, c => set_session v c
  | Action.actSetEndpoint v, c => set_endpoint v c

/-- Modelled from the spec: a write performed by logical task `t` updates
only task `t`'s slot of the shared store. -/
def applyTagged (t : Nat) (a : Action) (s : TaskStore) : TaskStore :=
  fun x => if x = t then applyWrite a (s x) else s x

/-- Run an interleaved schedule of task-tagged writes against the shared
store: a cooperative-concurrency execution in which suspension may let
another task's writes run at any point. -/
def runSchedule (s : TaskStore) : List (Nat × Action) → TaskStore
  | [] => s
  | p :: rest => runSchedule (applyTagged p.1 p.2 s) rest

/-- The store write recorded by a middleware trace event, if any. -/
def eventWrite : Event → Option Action
  | Event.evSetSession v => some (Action.actSetSession v)
  | Event.evSetEndpoint v => some (Action.actSetEndpoint v)
  | Event.evInvokeHandler => none

/-- The store writes of an event trace. -/
def writesOf (t : List Event) : List Action := t.filterMap eventWrite

/-- The store writes the middleware performs for a request before it
invokes the downstream handler: its event trace up to (not including) the
handler invocation. -/
def preHandlerWrites (req : Request) : List Action :=
  writesOf (((logging_context_middleware (ε := Unit) req
      (fun ctx => Except.ok ctx) Ctx.empty).2.1).takeWhile
    fun ev => ev != Event.evInvokeHandler)

/-- A task's view of the shared store after a schedule depends only on the
writes tagged with that task: other tasks' interleaved writes never touch
its slot. -/
theorem runSchedule_view (s : TaskStore) (l : List (Nat × Action)) (a : Nat) :
    runSchedule s l a =
      ((l.filter fun p => p.1 == a).map Prod.snd).foldl
        (fun c act => applyWrite act c) (s a) := by
  induction l generalizing s with
  | nil => rfl
  | cons p rest ih =>
    show runSchedule (applyTagged p.1 p.2 s) rest a = _
    rw [ih]
    rcases p with ⟨t, act⟩
    by_cases hp : t = a
    · subst hp
      simp [applyTagged, List.filter_cons]
    · have hp2 : ¬(a = t) := fun h => hp h.symm
      simp [applyTagged, List.filter_cons, hp, hp2]

/-- Claim C3: under the task-scoped Context Store, a logical request's
view of the store at handler time is exactly its own extracted session id
and its own path, for every interleaved schedule whose writes tagged with
its task are the middleware's pre-handler writes — whatever writes other
concurrently running tasks interleave around them.  So two concurrently
handled requests never observe each other's session id or endpoint. -/
theorem c3_concurrent_isolation (a : Nat) (reqA : Request) (s : TaskStore)
    (zs : List (Nat × Action))
    (h : (zs.filter fun p => p.1 == a).map Prod.snd = preHandlerWrites reqA) :
    runSchedule s zs a =
      { session := extractSession reqA, endpoint := some reqA.path } := by
  rw [runSchedule_view, h]
  rfl

/-- Witness for C3: two interleaved requests on tasks 0 and 1; task 0
sees only its own session id and path. -/
theorem c3_concurrent_isolation_witness :
    runSchedule (fun _ => Ctx.empty)
      [(0, Action.actSetSession (some "A1")),
       (1, Action.actSetSession (some "B1")),
       (0, Action.actSetEndpoint (some "/a")),
       (1, Action.actSetEndpoint (some "/b"))] 0 =
      { session := some "A1", endpoint := some "/a" } :=
  c3_concurrent_isolation 0
    { headers := [("X-Session-Id", "A1")], queryParams := [], path := "/a" }
    (fun _ => Ctx.empty)
    [(0, Action.actSetSession (some "A1")),
     (1, Action.actSetSession (some "B1")),
     (0, Action.actSetEndpoint (some "/a")),
     (1, Action.actSetEndpoint (some "/b"))]
    (by decide)

end Syntifai
